import Mathlib

/-!
Verification of the a2a-flightops decision layer.

The Python sources under src/agents are shallowly embedded below: the pure
rule engines become Lean functions, and each outbound effect (the Gemini
call, the OpenWeatherMap HTTP call, the call-log database write) becomes an
explicit outcome parameter threaded through the embedded function, so that
one invocation of the Python code corresponds to one application of the Lean
function to the outcome the world produced.
-/

set_option maxHeartbeats 1000000

namespace A2AFlightOps

/-- Values produced by Python json.loads, as passed around by the views and
services. Objects are association lists of distinct keys (json.loads keeps
the last duplicate, so decoded dicts never carry duplicates). -/
inductive Json where
  | null : Json
  | bool (b : Bool) : Json
  | num (q : ℚ) : Json
  | str (s : String) : Json
  | arr (elems : List Json) : Json
  | obj (fields : List (String × Json)) : Json

/-- Python truthiness of a decoded JSON value, as tested by the views with
`if not x`. -/
def Json.truthy : Json → Bool
  | .null => false
  | .bool b => b
  | .num q => decide (q ≠ 0)
  | .str s => !s.isEmpty
  | .arr elems => !elems.isEmpty
  | .obj fields => !fields.isEmpty

/-- Field access on a decoded JSON object (Python dict.get with no default:
none both when the value is not a dict and when the key is absent). -/
def Json.getField : Json → String → Option Json
  | .obj fields, k => fields.lookup k
  | _, _ => none

/-- The key set of a decoded JSON object, in declaration order. -/
def Json.keys : Json → List String
  | .obj fields => fields.map Prod.fst
  | _ => []

/-- Python dict.get with a default, on a decoded object's field list. -/
def dictGet (fields : List (String × Json)) (k : String) (dflt : Json) : Json :=
  (fields.lookup k).getD dflt

/-- Truthiness of an optional credential string, as tested by
`if not api_key` (unset and empty both force the fallback). -/
def keyTruthy : Option String → Bool
  | none => false
  | some s => !s.isEmpty

/-- Python float() applied to a decoded JSON value, as in
`float(gemini_response.get("confidence", 0.75))`. Numbers pass through and
booleans coerce to 0/1; null, arrays and objects raise TypeError, modelled as
none (the caller catches the exception). Python additionally parses numeric
strings; no claim exercises a string confidence, so strings are grouped with
the raising shapes. -/
def pyFloat : Json → Option ℚ
  | .num q => some q
  | .bool b => some (if b then 1 else 0)
  | _ => none

/-- The 26 lowercase-to-uppercase ASCII letter pairs. -/
def upperPairs : List (Char × Char) :=
  [('a', 'A'), ('b', 'B'), ('c', 'C'), ('d', 'D'), ('e', 'E'), ('f', 'F'),
   ('g', 'G'), ('h', 'H'), ('i', 'I'), ('j', 'J'), ('k', 'K'), ('l', 'L'),
   ('m', 'M'), ('n', 'N'), ('o', 'O'), ('p', 'P'), ('q', 'Q'), ('r', 'R'),
   ('s', 'S'), ('t', 'T'), ('u', 'U'), ('v', 'V'), ('w', 'W'), ('x', 'X'),
   ('y', 'Y'), ('z', 'Z')]

/-- The 26 uppercase-to-lowercase ASCII letter pairs. -/
def lowerPairs : List (Char × Char) :=
  [('A', 'a'), ('B', 'b'), ('C', 'c'), ('D', 'd'), ('E', 'e'), ('F', 'f'),
   ('G', 'g'), ('H', 'h'), ('I', 'i'), ('J', 'j'), ('K', 'k'), ('L', 'l'),
   ('M', 'm'), ('N', 'n'), ('O', 'o'), ('P', 'p'), ('Q', 'q'), ('R', 'r'),
   ('S', 's'), ('T', 't'), ('U', 'u'), ('V', 'v'), ('W', 'w'), ('X', 'x'),
   ('Y', 'y'), ('Z', 'z')]

/-- ASCII fragment of Python str.upper, one character at a time. Airport
codes and weather condition words are ASCII, so the tabulated 26 letters
cover every input the embedded code feeds it. -/
def pyCharUpper (c : Char) : Char := (upperPairs.lookup c).getD c

/-- ASCII fragment of Python str.lower, one character at a time. -/
def pyCharLower (c : Char) : Char := (lowerPairs.lookup c).getD c

/-- The ASCII whitespace characters removed by Python str.strip with no
argument. -/
def pyIsSpace (c : Char) : Bool :=
  c = ' ' || c = '\t' || c = '\n' || c = '\r' || c = '\x0b' || c = '\x0c'

/-- Character list form of str.upper. -/
def upperList (l : List Char) : List Char := l.map pyCharUpper

/-- Character list form of str.strip: drop whitespace from the front, then
from the back. -/
def stripL (l : List Char) : List Char :=
  ((l.dropWhile pyIsSpace).reverse.dropWhile pyIsSpace).reverse

/-- Python str.upper on a string. -/
def pyUpper (s : String) : String := ⟨upperList s.data⟩

/-- Python str.lower on a string. -/
def pyLower (s : String) : String := ⟨s.data.map pyCharLower⟩

/-- Python str.strip on a string. -/
def pyStrip (s : String) : String := ⟨stripL s.data⟩

/-- Contiguous-sublist test on character lists. -/
def listInfix (pat : List Char) : List Char → Bool
  | [] => pat.isEmpty
  | c :: rest => pat.isPrefixOf (c :: rest) || listInfix pat rest

/-- Python substring membership, `pat in s`. -/
def strContains (s pat : String) : Bool := listInfix pat.data s.data

/-- Outcome of the outbound Gemini call, seen after the response text has had
its code fences stripped and been handed to json.loads: the call itself may
raise (err covers network, timeout, quota and model errors), or return text
that json.loads rejects (reply none, the JSONDecodeError arm), or return text
decoding to a JSON value (reply (some j)). -/
inductive LlmOutcome where
  | err : LlmOutcome
  | reply (decoded : Option Json) : LlmOutcome

namespace GeminiCostService

def AGENT_NAME : String := "Gemini-Cost-Agent"

/-- Embeds GeminiCostService._get_fallback_response from
src/agents/services.py. The vip_passengers argument is taken but never read,
exactly as in the source. -/
def get_fallback_response (delay_hours total_passengers vip_passengers : ℕ) : Json :=
  if 4 ≤ delay_hours ∨ total_passengers < 50 then
    .obj [("agent", .str AGENT_NAME),
          ("recommendation", .str "HOTEL_FOR_ALL"),
          ("reason", .str "Small passenger count or long delay justifies full accommodation"),
          ("confidence", .num (65/100))]
  else
    .obj [("agent", .str AGENT_NAME),
          ("recommendation", .str "LIMIT_HOTEL"),
          ("reason", .str "Hotel for all passengers is expensive for this delay duration"),
          ("confidence", .num (70/100))]

/-- Embeds GeminiCostService.get_recommendation from src/agents/services.py.
The whole Gemini interaction sits in one try/except whose every handler
returns the fallback, so: missing or empty credential, a raising call, text
that is not JSON, a decoded value that is not a dict (its .get raises
AttributeError), and a confidence float() cannot coerce, all produce the
fallback; otherwise the decoded fields are passed through with the source's
defaults. -/
def get_recommendation (apiKey : Option String) (llm : LlmOutcome)
    (delay_hours total_passengers vip_passengers : ℕ) : Json :=
  if keyTruthy apiKey = false then
    get_fallback_response delay_hours total_passengers vip_passengers
  else
    match llm with
    | .err => get_fallback_response delay_hours total_passengers vip_passengers
    | .reply none => get_fallback_response delay_hours total_passengers vip_passengers
    | .reply (some j) =>
      match j with
      | .obj fields =>
        match pyFloat (dictGet fields "confidence" (.num (3/4))) with
        | some confidence =>
            .obj [("agent", .str AGENT_NAME),
                  ("recommendation", dictGet fields "recommendation" (.str "LIMIT_HOTEL")),
                  ("reason", dictGet fields "reason" (.str "Cost optimization analysis")),
                  ("confidence", .num confidence)]
        | none => get_fallback_response delay_hours total_passengers vip_passengers
      | _ => get_fallback_response delay_hours total_passengers vip_passengers

end GeminiCostService

namespace ComplianceService

def AGENT_NAME : String := "Compliance-Agent"

/-- Embeds ComplianceService.get_rule from src/agents/services.py: a pure
threshold rule at 2 hours, confidence 1.0 on both branches. -/
def get_rule (delay_hours : ℕ) : Json :=
  if 2 ≤ delay_hours then
    .obj [("agent", .str AGENT_NAME),
          ("rule", .str "HOTEL_MANDATORY"),
          ("reason", .str "Delay exceeds regulatory threshold"),
          ("confidence", .num 1)]
  else
    .obj [("agent", .str AGENT_NAME),
          ("rule", .str "HOTEL_NOT_REQUIRED"),
          ("reason", .str "Delay below regulatory threshold"),
          ("confidence", .num 1)]

end ComplianceService

namespace OpsService

def AGENT_NAME : String := "Ops-Agent"

/-- Embeds OpsService.get_feasibility from src/agents/services.py: a constant
mock payload. -/
def get_feasibility : Json :=
  .obj [("agent", .str AGENT_NAME),
        ("available_seats", .num 42),
        ("hotel_capacity", .str "LIMITED")]

end OpsService

/-- Outcome of the outbound OpenWeatherMap HTTP call made by
_fetch_real_weather: every failure (timeout, network error, non-200 status,
and any exception while reading the body) makes that function return None, so
they collapse to fail; ok carries the four values the code extracts from a
well-formed 200 body (absent fields already replaced by the source's .get
defaults of an empty condition, empty description, wind 0 and visibility
10000). -/
inductive FetchOutcome where
  | fail : FetchOutcome
  | ok (main description : String) (wind_speed : ℚ) (visibility : ℤ) : FetchOutcome

namespace WeatherDisruptionService

def HIGH_SEVERITY_AIRPORTS : List String := ["DEL", "BOM", "CCU", "BLR"]

def airport_to_city : List (String × String) :=
  [("DEL", "Delhi"), ("BOM", "Mumbai"), ("CCU", "Kolkata"), ("BLR", "Bangalore"),
   ("MAA", "Chennai"), ("HYD", "Hyderabad"), ("COK", "Kochi"), ("GOI", "Goa")]

/-- Embeds WeatherDisruptionService._normalize_severity from
src/agents/mcp_weather_service.py: the if chain in source order. -/
def normalize_severity (weather_main weather_description : String)
    (wind_speed : ℚ) (visibility : ℤ) : String :=
  if strContains weather_main "THUNDERSTORM" ∨ strContains weather_main "EXTREME" then "HIGH"
  else if strContains weather_description "heavy" ∨ strContains weather_description "severe" then "HIGH"
  else if 15 < wind_speed then "HIGH"
  else if visibility < 1000 then "HIGH"
  else if strContains weather_main "RAIN" ∨ strContains weather_main "SNOW"
      ∨ strContains weather_main "DRIZZLE" then "MEDIUM"
  else if 8 < wind_speed then "MEDIUM"
  else if visibility < 5000 then "MEDIUM"
  else "LOW"

def duration_map : List (String × ℚ) := [("HIGH", 4), ("MEDIUM", 2), ("LOW", 1/2)]

/-- Embeds WeatherDisruptionService._estimate_duration: duration_map.get with
default 2.0. -/
def estimate_duration (severity : String) : ℚ := (duration_map.lookup severity).getD 2

def major_hubs : List String := ["DEL", "BOM", "BLR", "MAA"]

/-- Embeds WeatherDisruptionService._assess_cascading_risk. -/
def assess_cascading_risk (severity airport_code : String) : String :=
  if severity = "HIGH" then "HIGH"
  else if severity = "MEDIUM" ∧ airport_code ∈ major_hubs then "MEDIUM"
  else if severity = "MEDIUM" then "LOW"
  else "LOW"

/-- Embeds WeatherDisruptionService._fetch_real_weather: None without a
truthy credential, None for a code outside the city mapping, None on any
failed call, and otherwise the v1 payload derived from the uppercased
condition, lowercased description, wind speed and visibility — including the
extra raw_weather field the source attaches. -/
def fetch_real_weather (apiKey : Option String) (http : FetchOutcome)
    (airport_code : String) : Option Json :=
  if keyTruthy apiKey = false then none
  else if (airport_to_city.lookup airport_code).isNone then none
  else
    match http with
    | .fail => none
    | .ok main description wind_speed visibility =>
      some (.obj [("severity", .str (normalize_severity (pyUpper main) (pyLower description)
                    wind_speed visibility)),
                  ("expected_duration_hours", .num (estimate_duration
                    (normalize_severity (pyUpper main) (pyLower description)
                      wind_speed visibility))),
                  ("cascading_delay_risk", .str (assess_cascading_risk
                    (normalize_severity (pyUpper main) (pyLower description)
                      wind_speed visibility) airport_code)),
                  ("source", .str "v1"),
                  ("raw_weather", .obj [("condition", .str (pyUpper main)),
                                        ("description", .str (pyLower description)),
                                        ("wind_speed_ms", .num wind_speed),
                                        ("visibility_m", .num visibility)])])

/-- Embeds WeatherDisruptionService._get_fallback_response: the hardcoded v2
rules keyed on the high-severity airport set. -/
def get_fallback_response (airport_code : String) : Json :=
  if airport_code ∈ HIGH_SEVERITY_AIRPORTS then
    .obj [("severity", .str "HIGH"), ("expected_duration_hours", .num 4),
          ("cascading_delay_risk", .str "HIGH"), ("source", .str "v2")]
  else
    .obj [("severity", .str "MEDIUM"), ("expected_duration_hours", .num 2),
          ("cascading_delay_risk", .str "MEDIUM"), ("source", .str "v2")]

/-- The body of get_weather_context after its normalisation line: take the v1
payload when the fetch produced one, the v2 fallback otherwise. -/
def weather_decision (apiKey : Option String) (http : FetchOutcome) (code : String) : Json :=
  match fetch_real_weather apiKey http code with
  | some real_data => real_data
  | none => get_fallback_response code

/-- Embeds WeatherDisruptionService.get_weather_context: the airport code is
uppercased then stripped on entry, and the façade never fails. -/
def get_weather_context (apiKey : Option String) (http : FetchOutcome)
    (airport_code : String) : Json :=
  weather_decision apiKey http (pyStrip (pyUpper airport_code))

end WeatherDisruptionService

/-- The request body of POST /mcp/tools/invoke as the view sees it: either
json.loads raised (invalid) or it decoded to a JSON value. -/
inductive RequestBody where
  | invalid : RequestBody
  | decoded (j : Json) : RequestBody

/-- What an invocation of the mcp_tool_invoke view produces: a JsonResponse
with a status code, or an uncaught Python exception (which Django surfaces as
a 500, outside the view's own control flow). -/
inductive HttpResult where
  | response (body : Json) (status : ℕ) : HttpResult
  | crash (exc : String) : HttpResult

/-- The error payload shape used throughout mcp_views.py. -/
def errorJson (code message : String) : Json :=
  .obj [("error", .obj [("code", .str code), ("message", .str message)])]

/-- Rendering of a decoded JSON value inside the UNKNOWN_TOOL f-string. Only
the string case is exercised by any theorem below; the remaining cases stand
in for Python str() of the other shapes. -/
def pyShow : Json → String
  | .str s => s
  | .bool true => "True"
  | .bool false => "False"
  | .null => "None"
  | .num q => toString q
  | .arr _ => "[...]"
  | .obj _ => "\x7b...\x7d"

/-- Embeds the body of mcp_tool_invoke from src/agents/mcp_views.py once the
body has decoded, parameterised by the weather service it dispatches to.
body.get("tool") and arguments.get("airport_code") are dict methods, so a
decoded body that is not an object — and, on the known-tool path, an
arguments value that is not an object — raises AttributeError, which nothing
in the view catches. -/
def mcp_invoke_decoded (weather : String → Json) (j : Json) : HttpResult :=
  match j with
  | .obj fields =>
    let tool_name := (fields.lookup "tool").getD .null
    let arguments := (fields.lookup "arguments").getD (.obj [])
    if tool_name.truthy = false then
      .response (errorJson "MISSING_TOOL" "Tool name is required") 400
    else
      match tool_name with
      | .str toolStr =>
        if toolStr = "weather_disruption_context" then
          match arguments with
          | .obj argFields =>
            let airport_code := (argFields.lookup "airport_code").getD .null
            if airport_code.truthy = false then
              .response (errorJson "INVALID_ARGUMENTS" "airport_code is required") 400
            else
              match airport_code with
              | .str codeStr =>
                if codeStr.length = 3 then
                  .response (.obj [("tool", .str toolStr), ("result", weather codeStr)]) 200
                else
                  .response (errorJson "INVALID_ARGUMENTS"
                    "airport_code must be a 3-letter IATA code") 400
              | _ => .response (errorJson "INVALID_ARGUMENTS"
                    "airport_code must be a 3-letter IATA code") 400
          | _ => .crash "AttributeError: arguments object has no attribute get"
        else
          .response (errorJson "UNKNOWN_TOOL"
            ("Tool '" ++ toolStr
              ++ "' is not available. Use /mcp/capabilities to discover available tools.")) 404
      | other => .response (errorJson "UNKNOWN_TOOL"
            ("Tool '" ++ pyShow other
              ++ "' is not available. Use /mcp/capabilities to discover available tools.")) 404
  | _ => .crash "AttributeError: body object has no attribute get"

/-- Embeds mcp_tool_invoke from src/agents/mcp_views.py: an undecodable body
is INVALID_REQUEST, and a decoded one is dispatched with the real weather
service. -/
def mcp_tool_invoke (weatherApiKey : Option String) (http : FetchOutcome)
    (body : RequestBody) : HttpResult :=
  match body with
  | .invalid => .response (errorJson "INVALID_REQUEST" "Request body must be valid JSON") 400
  | .decoded j =>
      mcp_invoke_decoded (WeatherDisruptionService.get_weather_context weatherApiKey http) j

/-- Outcome of the AgentCallLog database write attempted inside
_log_agent_call: the create either commits or raises. -/
inductive LogOutcome where
  | ok : LogOutcome
  | raises (exc : String) : LogOutcome

/-- Embeds views._log_agent_call from src/agents/views.py as the list of log
rows the call persists: one row when the write commits, none when it raises —
the except swallows the exception, so the helper returns normally either
way. -/
def log_agent_call (db : LogOutcome) (agent_name : String)
    (request_data response_data : Json) : List (String × Json × Json) :=
  match db with
  | .ok => [(agent_name, request_data, response_data)]
  | .raises _ => []

/-- What one of the three DRF agent views returns, together with the call-log
rows its handling persisted. -/
structure ViewResult where
  body : Json
  status : ℕ
  saved_logs : List (String × Json × Json)

/-- Embeds serializers.IntegerField(min_value=0) on a decoded JSON value:
integer-valued numbers at least zero validate; negative or fractional numbers
and non-numeric shapes are rejected. (DRF also coerces integer-shaped
strings; no claim exercises that path.) -/
def asNonNegInt : Json → Option ℕ
  | .num q => if q.den = 1 ∧ 0 ≤ q.num then some q.num.toNat else none
  | _ => none

/-- Embeds GeminiCostRequestSerializer: three required non-negative integer
fields plus the vip ≤ total object-level check. -/
def validate_cost (req : Json) : Option (ℕ × ℕ × ℕ) :=
  match req with
  | .obj fields =>
    match fields.lookup "delay_hours", fields.lookup "total_passengers",
        fields.lookup "vip_passengers" with
    | some dj, some tj, some vj =>
      match asNonNegInt dj, asNonNegInt tj, asNonNegInt vj with
      | some d, some t, some v => if v ≤ t then some (d, t, v) else none
      | _, _, _ => none
    | _, _, _ => none
  | _ => none

/-- Embeds ComplianceRequestSerializer: one required non-negative integer. -/
def validate_compliance (req : Json) : Option ℕ :=
  match req with
  | .obj fields =>
    match fields.lookup "delay_hours" with
    | some dj => asNonNegInt dj
    | none => none
  | _ => none

/-- The 400 body the views build on serializer failure; the serializer's
per-field details are abstracted to null. -/
def invalidRequestBody : Json :=
  .obj [("error", .str "Invalid request"), ("details", .null)]

/-- Embeds the gemini_cost_agent view from src/agents/views.py: validate,
call the service, attempt the log write, and return the service payload
untouched. -/
def gemini_cost_agent (apiKey : Option String) (llm : LlmOutcome) (db : LogOutcome)
    (req : Json) : ViewResult :=
  match validate_cost req with
  | none => { body := invalidRequestBody, status := 400, saved_logs := [] }
  | some (d, t, v) =>
    { body := GeminiCostService.get_recommendation apiKey llm d t v,
      status := 200,
      saved_logs := log_agent_call db GeminiCostService.AGENT_NAME req
        (GeminiCostService.get_recommendation apiKey llm d t v) }

/-- Embeds the compliance_agent view from src/agents/views.py. -/
def compliance_agent (db : LogOutcome) (req : Json) : ViewResult :=
  match validate_compliance req with
  | none => { body := invalidRequestBody, status := 400, saved_logs := [] }
  | some d =>
    { body := ComplianceService.get_rule d,
      status := 200,
      saved_logs := log_agent_call db ComplianceService.AGENT_NAME req
        (ComplianceService.get_rule d) }

/-- Embeds the ops_agent view from src/agents/views.py: a falsy body is
replaced by an empty dict, the field-free serializer then only requires a
dict, and the constant payload is returned and logged. -/
def ops_agent (db : LogOutcome) (req : Json) : ViewResult :=
  match (if req.truthy then req else .obj []) with
  | .obj _ =>
    { body := OpsService.get_feasibility,
      status := 200,
      saved_logs := log_agent_call db OpsService.AGENT_NAME
        (if req.truthy then req else .obj []) OpsService.get_feasibility }
  | _ => { body := invalidRequestBody, status := 400, saved_logs := [] }

/-- C1: for every triple of non-negative integers, the cost fallback rule
returns recommendation HOTEL_FOR_ALL with confidence 0.65 when
delay_hours ≥ 4 or total_passengers < 50, and otherwise LIMIT_HOTEL with
confidence 0.70; the result never depends on vip_passengers. -/
theorem C1_cost_fallback_rule (delay_hours total_passengers vip vip' : ℕ) :
    ((4 ≤ delay_hours ∨ total_passengers < 50) →
      (GeminiCostService.get_fallback_response delay_hours total_passengers vip).getField
          "recommendation" = some (.str "HOTEL_FOR_ALL") ∧
      (GeminiCostService.get_fallback_response delay_hours total_passengers vip).getField
          "confidence" = some (.num (65/100))) ∧
    (¬ (4 ≤ delay_hours ∨ total_passengers < 50) →
      (GeminiCostService.get_fallback_response delay_hours total_passengers vip).getField
          "recommendation" = some (.str "LIMIT_HOTEL") ∧
      (GeminiCostService.get_fallback_response delay_hours total_passengers vip).getField
          "confidence" = some (.num (70/100))) ∧
    GeminiCostService.get_fallback_response delay_hours total_passengers vip
      = GeminiCostService.get_fallback_response delay_hours total_passengers vip' := by
  unfold GeminiCostService.get_fallback_response
  refine ⟨fun h => ?_, fun h => ?_, rfl⟩
  · rw [if_pos h]; exact ⟨rfl, rfl⟩
  · rw [if_neg h]; exact ⟨rfl, rfl⟩

/-- Witness for C1 at delay 5 with 100 passengers (long-delay branch) and at
delay 1 with 100 passengers (cost-containment branch). -/
theorem C1_cost_fallback_rule_witness :
    (GeminiCostService.get_fallback_response 5 100 7).getField "recommendation"
        = some (.str "HOTEL_FOR_ALL") ∧
    (GeminiCostService.get_fallback_response 1 100 7).getField "recommendation"
        = some (.str "LIMIT_HOTEL") :=
  ⟨((C1_cost_fallback_rule 5 100 7 7).1 (Or.inl (by decide))).1,
   ((C1_cost_fallback_rule 1 100 7 7).2.1 (by decide)).1⟩

/-- C2: for every non-negative integer delay_hours the compliance rule
returns HOTEL_MANDATORY with confidence 1.0 when delay_hours ≥ 2 and
HOTEL_NOT_REQUIRED with confidence 1.0 when delay_hours < 2. -/
theorem C2_compliance_threshold (delay_hours : ℕ) :
    (2 ≤ delay_hours →
      (ComplianceService.get_rule delay_hours).getField "rule"
          = some (.str "HOTEL_MANDATORY") ∧
      (ComplianceService.get_rule delay_hours).getField "confidence" = some (.num 1)) ∧
    (delay_hours < 2 →
      (ComplianceService.get_rule delay_hours).getField "rule"
          = some (.str "HOTEL_NOT_REQUIRED") ∧
      (ComplianceService.get_rule delay_hours).getField "confidence" = some (.num 1)) := by
  unfold ComplianceService.get_rule
  constructor
  · intro h; rw [if_pos h]; exact ⟨rfl, rfl⟩
  · intro h; rw [if_neg (by omega)]; exact ⟨rfl, rfl⟩

/-- Witness for C2 at delays 3 and 1. -/
theorem C2_compliance_threshold_witness :
    (ComplianceService.get_rule 3).getField "rule" = some (.str "HOTEL_MANDATORY") ∧
    (ComplianceService.get_rule 1).getField "rule" = some (.str "HOTEL_NOT_REQUIRED") :=
  ⟨((C2_compliance_threshold 3).1 (by decide)).1,
   ((C2_compliance_threshold 1).2 (by decide)).1⟩

/-- C3: the weather fallback rule returns severity HIGH, duration 4.0, risk
HIGH and source v2 for codes in the high-severity set {DEL, BOM, CCU, BLR},
and severity MEDIUM, duration 2.0, risk MEDIUM, source v2 for every other
code. -/
theorem C3_weather_fallback_rule (airport_code : String) :
    (airport_code ∈ WeatherDisruptionService.HIGH_SEVERITY_AIRPORTS →
      WeatherDisruptionService.get_fallback_response airport_code =
        .obj [("severity", .str "HIGH"), ("expected_duration_hours", .num 4),
              ("cascading_delay_risk", .str "HIGH"), ("source", .str "v2")]) ∧
    (airport_code ∉ WeatherDisruptionService.HIGH_SEVERITY_AIRPORTS →
      WeatherDisruptionService.get_fallback_response airport_code =
        .obj [("severity", .str "MEDIUM"), ("expected_duration_hours", .num 2),
              ("cascading_delay_risk", .str "MEDIUM"), ("source", .str "v2")]) := by
  unfold WeatherDisruptionService.get_fallback_response
  exact ⟨fun h => if_pos h, fun h => if_neg h⟩

/-- Witness for C3 at the high-severity code DEL and the ordinary code JFK. -/
theorem C3_weather_fallback_rule_witness :
    WeatherDisruptionService.get_fallback_response "DEL" =
      .obj [("severity", .str "HIGH"), ("expected_duration_hours", .num 4),
            ("cascading_delay_risk", .str "HIGH"), ("source", .str "v2")] ∧
    WeatherDisruptionService.get_fallback_response "JFK" =
      .obj [("severity", .str "MEDIUM"), ("expected_duration_hours", .num 2),
            ("cascading_delay_risk", .str "MEDIUM"), ("source", .str "v2")] :=
  ⟨(C3_weather_fallback_rule "DEL").1 (by decide),
   (C3_weather_fallback_rule "JFK").2 (by decide)⟩

/-- Severity as the specification words it, for comparison with the code's
normalize_severity: HIGH if the condition main contains THUNDERSTORM or
EXTREME, or the description contains heavy or severe, or wind speed exceeds
15, or visibility is under 1000; else MEDIUM if the condition main contains
RAIN, SNOW or DRIZZLE, or wind speed exceeds 8, or visibility is under 5000;
else LOW — first match wins. -/
def specSeverity (main description : String) (wind : ℚ) (vis : ℤ) : String :=
  if strContains main "THUNDERSTORM" ∨ strContains main "EXTREME"
      ∨ strContains description "heavy" ∨ strContains description "severe"
      ∨ 15 < wind ∨ vis < 1000 then "HIGH"
  else if strContains main "RAIN" ∨ strContains main "SNOW" ∨ strContains main "DRIZZLE"
      ∨ 8 < wind ∨ vis < 5000 then "MEDIUM"
  else "LOW"

/-- Expected duration as the specification words it: 4.0 for HIGH, 2.0 for
MEDIUM, 0.5 for LOW. -/
def specDuration (severity : String) : ℚ :=
  if severity = "HIGH" then 4 else if severity = "MEDIUM" then 2 else 1/2

/-- Cascading risk as the specification words it: HIGH when severity is HIGH,
MEDIUM when severity is MEDIUM at a major hub, LOW otherwise. -/
def specRisk (severity airport : String) : String :=
  if severity = "HIGH" then "HIGH"
  else if severity = "MEDIUM" then
    (if airport ∈ WeatherDisruptionService.major_hubs then "MEDIUM" else "LOW")
  else "LOW"

/-- The code's severity chain only ever produces the three expected labels. -/
theorem normalize_severity_cases (m d : String) (w : ℚ) (v : ℤ) :
    WeatherDisruptionService.normalize_severity m d w v = "HIGH"
    ∨ WeatherDisruptionService.normalize_severity m d w v = "MEDIUM"
    ∨ WeatherDisruptionService.normalize_severity m d w v = "LOW" := by
  unfold WeatherDisruptionService.normalize_severity
  split_ifs <;> simp

/-- C4: on every successfully fetched observation the live derivation agrees
with the specification's priority-ordered severity rule, its fixed duration
lookup, and its hub-sensitive cascading-risk rule. -/
theorem C4_live_weather_derivation (main description : String) (wind : ℚ) (vis : ℤ)
    (airport : String) :
    WeatherDisruptionService.normalize_severity main description wind vis
      = specSeverity main description wind vis ∧
    WeatherDisruptionService.estimate_duration
        (WeatherDisruptionService.normalize_severity main description wind vis)
      = specDuration (WeatherDisruptionService.normalize_severity main description wind vis) ∧
    WeatherDisruptionService.assess_cascading_risk
        (WeatherDisruptionService.normalize_severity main description wind vis) airport
      = specRisk (WeatherDisruptionService.normalize_severity main description wind vis)
          airport := by
  refine ⟨?_, ?_, ?_⟩
  · unfold WeatherDisruptionService.normalize_severity specSeverity
    split_ifs <;> tauto
  · rcases normalize_severity_cases main description wind vis with h | h | h <;>
      rw [h] <;> rfl
  · rcases normalize_severity_cases main description wind vis with h | h | h <;>
      rw [h] <;>
      unfold WeatherDisruptionService.assess_cascading_risk specRisk <;>
      split_ifs <;> simp_all

/-- C5: evaluation of the invoke view at the inputs that decide the claim. A
body that is valid JSON but not an object — here the array [1, 2] — reaches
body.get and raises an uncaught AttributeError instead of the MISSING_TOOL
error the claim promises for a body without a tool name, while an empty
object body does produce MISSING_TOOL with status 400. -/
theorem C5_invoke_nonobject_body_escapes_validation :
    mcp_tool_invoke none .fail (.decoded (.arr [.num 1, .num 2]))
      = .crash "AttributeError: body object has no attribute get" ∧
    mcp_tool_invoke none .fail (.decoded (.obj []))
      = .response (errorJson "MISSING_TOOL" "Tool name is required") 400 :=
  ⟨rfl, rfl⟩

/-- Counterexample to C6 as stated: on airport DEL the live path's response
carries a raw_weather field the fallback path's response lacks, so the two
paths do not produce the same field set. -/
theorem C6_counterexample :
    Json.keys (WeatherDisruptionService.get_weather_context (some "k")
        (.ok "Clear" "clear sky" 0 10000) "DEL")
      ≠ Json.keys (WeatherDisruptionService.get_weather_context none .fail "DEL") := by
  decide

/-- C6 as amended: both paths always carry the four schema fields severity,
expected_duration_hours, cascading_delay_risk and source, in that order; the
live path carries exactly one extra field, raw_weather, and that is the only
difference in field presence. -/
theorem C6_response_shapes :
    (∀ code, Json.keys (WeatherDisruptionService.get_fallback_response code)
      = ["severity", "expected_duration_hours", "cascading_delay_risk", "source"]) ∧
    (∀ apiKey http code payload,
      WeatherDisruptionService.fetch_real_weather apiKey http code = some payload →
      Json.keys payload
        = ["severity", "expected_duration_hours", "cascading_delay_risk", "source",
           "raw_weather"]) := by
  constructor
  · intro code
    unfold WeatherDisruptionService.get_fallback_response
    split_ifs <;> rfl
  · intro apiKey http code payload h
    unfold WeatherDisruptionService.fetch_real_weather at h
    cases http with
    | fail => split_ifs at h <;> exact Option.noConfusion h
    | ok main description wind_speed visibility =>
      split_ifs at h <;>
        first
          | exact Option.noConfusion h
          | (have hp := Option.some_inj.mp h; subst hp; rfl)

/-- Witness for C6's amended theorem: the fallback shape at code XYZ and the
live shape for a clear-sky fetch at DEL. -/
theorem C6_response_shapes_witness :
    Json.keys (WeatherDisruptionService.get_fallback_response "XYZ")
      = ["severity", "expected_duration_hours", "cascading_delay_risk", "source"] ∧
    Json.keys ((WeatherDisruptionService.fetch_real_weather (some "k")
        (.ok "Clear" "clear sky" 0 10000) "DEL").getD .null)
      = ["severity", "expected_duration_hours", "cascading_delay_risk", "source",
         "raw_weather"] :=
  ⟨C6_response_shapes.1 "XYZ",
   C6_response_shapes.2 (some "k") (.ok "Clear" "clear sky" 0 10000) "DEL" _ rfl⟩

/-- Counterexample to C7 as stated: a Gemini reply decoding to the JSON
object with confidence 2 flows into the decision response unclamped, and 2
does not lie in [0, 1]. -/
theorem C7_counterexample :
    (GeminiCostService.get_recommendation (some "k")
        (.reply (some (.obj [("recommendation", .str "HOTEL_FOR_ALL"),
          ("reason", .str "model says so"), ("confidence", .num 2)])))
        5 100 0).getField "confidence" = some (.num 2) ∧
    ¬ ((2 : ℚ) ≤ 1) :=
  ⟨rfl, by norm_num⟩

/-- C7 as amended: the confidence of every rule-produced response (the cost
fallback on both branches and the compliance rule) lies in [0, 1], but on the
Gemini success path the confidence is whatever float() makes of the decoded
JSON's confidence field (default 0.75), passed through without validation, so
it lies in [0, 1] only when that decoded value does. -/
theorem C7_confidence_range :
    (∀ d t v, ∃ q, (GeminiCostService.get_fallback_response d t v).getField "confidence"
        = some (.num q) ∧ 0 ≤ q ∧ q ≤ 1) ∧
    (∀ d, ∃ q, (ComplianceService.get_rule d).getField "confidence"
        = some (.num q) ∧ 0 ≤ q ∧ q ≤ 1) ∧
    (∀ apiKey fields d t v q, keyTruthy apiKey = true →
      pyFloat (dictGet fields "confidence" (.num (3/4))) = some q →
      (GeminiCostService.get_recommendation apiKey (.reply (some (.obj fields)))
          d t v).getField "confidence" = some (.num q)) := by
  refine ⟨fun d t v => ?_, fun d => ?_, fun apiKey fields d t v q hk hq => ?_⟩
  · unfold GeminiCostService.get_fallback_response
    split_ifs
    · exact ⟨65/100, rfl, by norm_num, by norm_num⟩
    · exact ⟨70/100, rfl, by norm_num, by norm_num⟩
  · unfold ComplianceService.get_rule
    split_ifs
    · exact ⟨1, rfl, by norm_num, by norm_num⟩
    · exact ⟨1, rfl, by norm_num, by norm_num⟩
  · unfold GeminiCostService.get_recommendation
    rw [hk]
    simp only [Bool.true_eq_false, if_false]
    rw [hq]
    rfl

/-- Witness for C7's amended theorem: the fallback confidence at (0, 0, 0)
and the pass-through of the out-of-range confidence 2. -/
theorem C7_confidence_range_witness :
    (∃ q, (GeminiCostService.get_fallback_response 0 0 0).getField "confidence"
        = some (.num q) ∧ 0 ≤ q ∧ q ≤ 1) ∧
    (GeminiCostService.get_recommendation (some "k")
        (.reply (some (.obj [("confidence", .num 2)]))) 5 100 0).getField "confidence"
      = some (.num 2) :=
  ⟨C7_confidence_range.1 0 0 0,
   C7_confidence_range.2.2 (some "k") [("confidence", .num 2)] 5 100 0 2 rfl rfl⟩

/-- C8: with no credential configured, the result of the cost decision, the
weather decision and the invoke endpoint does not depend on the outcome of
the external call at all, so two invocations on identical input produce
identical payloads. -/
theorem C8_no_credential_determinism :
    (∀ llm1 llm2 d t v,
      GeminiCostService.get_recommendation none llm1 d t v
        = GeminiCostService.get_recommendation none llm2 d t v) ∧
    (∀ http1 http2 code,
      WeatherDisruptionService.get_weather_context none http1 code
        = WeatherDisruptionService.get_weather_context none http2 code) ∧
    (∀ http1 http2 body,
      mcp_tool_invoke none http1 body = mcp_tool_invoke none http2 body) ∧
    (∀ llm1 llm2 db1 db2 req,
      (gemini_cost_agent none llm1 db1 req).body
        = (gemini_cost_agent none llm2 db2 req).body) ∧
    (∀ db1 db2 req, (compliance_agent db1 req).body = (compliance_agent db2 req).body) ∧
    (∀ db1 db2 req, (ops_agent db1 req).body = (ops_agent db2 req).body) := by
  refine ⟨fun llm1 llm2 d t v => rfl, fun http1 http2 code => rfl,
    fun http1 http2 body => ?_, fun llm1 llm2 db1 db2 req => ?_, fun db1 db2 req => ?_,
    fun db1 db2 req => ?_⟩
  · unfold mcp_tool_invoke
    cases body with
    | invalid => rfl
    | decoded j =>
      have hw : WeatherDisruptionService.get_weather_context none http1
          = WeatherDisruptionService.get_weather_context none http2 :=
        funext fun s => rfl
      rw [hw]
  · cases hv : validate_cost req with
    | none => simp [gemini_cost_agent, hv]
    | some triple =>
      simp only [gemini_cost_agent, hv]
      rfl
  · cases hv : validate_compliance req with
    | none => simp [compliance_agent, hv]
    | some d => simp [compliance_agent, hv]
  · unfold ops_agent
    rcases hx : (if req.truthy then req else Json.obj []) with _ | b | q | s | el | fl <;>
      simp [hx]

/-- C9: for each of the three agent views, the response body and status are
identical whether the call-log write commits or raises, and on every valid
input handled with a committing write exactly the expected log row is
persisted — so a logging failure is never observable in the response. -/
theorem C9_log_failure_invisible :
    (∀ apiKey llm db1 db2 req,
      (gemini_cost_agent apiKey llm db1 req).body
          = (gemini_cost_agent apiKey llm db2 req).body ∧
      (gemini_cost_agent apiKey llm db1 req).status
          = (gemini_cost_agent apiKey llm db2 req).status) ∧
    (∀ db1 db2 req,
      (compliance_agent db1 req).body = (compliance_agent db2 req).body ∧
      (compliance_agent db1 req).status = (compliance_agent db2 req).status) ∧
    (∀ db1 db2 req,
      (ops_agent db1 req).body = (ops_agent db2 req).body ∧
      (ops_agent db1 req).status = (ops_agent db2 req).status) ∧
    (∀ apiKey llm req d t v, validate_cost req = some (d, t, v) →
      (gemini_cost_agent apiKey llm .ok req).saved_logs
        = [(GeminiCostService.AGENT_NAME, req,
            GeminiCostService.get_recommendation apiKey llm d t v)]) ∧
    (∀ req d, validate_compliance req = some d →
      (compliance_agent .ok req).saved_logs
        = [(ComplianceService.AGENT_NAME, req, ComplianceService.get_rule d)]) ∧
    (∀ req, (ops_agent .ok req).status = 200 →
      (ops_agent .ok req).saved_logs
        = [(OpsService.AGENT_NAME, if req.truthy then req else .obj [],
            OpsService.get_feasibility)]) := by
  refine ⟨fun apiKey llm db1 db2 req => ?_, fun db1 db2 req => ?_, fun db1 db2 req => ?_,
    fun apiKey llm req d t v h => ?_, fun req d h => ?_, fun req h => ?_⟩
  · cases hv : validate_cost req with
    | none => simp [gemini_cost_agent, hv]
    | some triple => simp [gemini_cost_agent, hv]
  · cases hv : validate_compliance req with
    | none => simp [compliance_agent, hv]
    | some d => simp [compliance_agent, hv]
  · unfold ops_agent
    rcases hx : (if req.truthy then req else Json.obj []) with _ | b | q | s | el | fl <;>
      simp [hx]
  · simp [gemini_cost_agent, h, log_agent_call]
  · simp [compliance_agent, h, log_agent_call]
  · unfold ops_agent at h ⊢
    rcases hx : (if req.truthy then req else Json.obj []) with _ | b | q | s | el | fl <;>
      simp [hx] at h ⊢ <;> simp [log_agent_call]

/-- Witness for C9: the persisted log rows for a concrete valid cost request
and a concrete valid compliance request when the write commits. -/
theorem C9_log_failure_invisible_witness :
    (gemini_cost_agent none .err .ok (.obj [("delay_hours", .num 3),
        ("total_passengers", .num 100), ("vip_passengers", .num 5)])).saved_logs
      = [(GeminiCostService.AGENT_NAME,
          .obj [("delay_hours", .num 3), ("total_passengers", .num 100),
                ("vip_passengers", .num 5)],
          GeminiCostService.get_recommendation none .err 3 100 5)] ∧
    (compliance_agent .ok (.obj [("delay_hours", .num 3)])).saved_logs
      = [(ComplianceService.AGENT_NAME, .obj [("delay_hours", .num 3)],
          ComplianceService.get_rule 3)] :=
  ⟨C9_log_failure_invisible.2.2.2.1 none .err _ 3 100 5 rfl,
   C9_log_failure_invisible.2.2.2.2.1 _ 3 rfl⟩

/-- A value delivered by an association-list lookup sits among the stored
values. -/
theorem lookup_mem_values {l : List (Char × Char)} {a b : Char}
    (h : l.lookup a = some b) : b ∈ l.map Prod.snd := by
  induction l with
  | nil => simp [List.lookup] at h
  | cons kv rest ih =>
    cases kv with
    | mk k v =>
      by_cases hk : (a == k) = true
      · simp [List.lookup, hk] at h
        simp [h]
      · simp only [List.lookup, hk] at h
        simp [ih h]

/-- A key an association-list lookup answers for sits among the stored
keys. -/
theorem lookup_mem_keys {l : List (Char × Char)} {a b : Char}
    (h : l.lookup a = some b) : a ∈ l.map Prod.fst := by
  induction l with
  | nil => simp [List.lookup] at h
  | cons kv rest ih =>
    cases kv with
    | mk k v =>
      by_cases hk : (a == k) = true
      · simp [eq_of_beq hk]
      · simp only [List.lookup, hk] at h
        simp [ih h]

/-- The ASCII uppercase map is idempotent on characters. -/
theorem pyCharUpper_idem (c : Char) : pyCharUpper (pyCharUpper c) = pyCharUpper c := by
  unfold pyCharUpper
  cases h : upperPairs.lookup c with
  | none => simp [h]
  | some u =>
    simp only [Option.getD_some]
    have hu : u ∈ upperPairs.map Prod.snd := lookup_mem_values h
    fin_cases hu <;> rfl

/-- Uppercasing a character does not change whether it is whitespace. -/
theorem pyIsSpace_pyCharUpper (c : Char) : pyIsSpace (pyCharUpper c) = pyIsSpace c := by
  unfold pyCharUpper
  cases h : upperPairs.lookup c with
  | none => simp
  | some u =>
    simp only [Option.getD_some]
    have hu : u ∈ upperPairs.map Prod.snd := lookup_mem_values h
    have hc : c ∈ upperPairs.map Prod.fst := lookup_mem_keys h
    have h1 : pyIsSpace u = false := by fin_cases hu <;> rfl
    have h2 : pyIsSpace c = false := by fin_cases hc <;> rfl
    rw [h1, h2]

/-- Unfolding equation for the uppercase map on a cons cell. -/
theorem upperList_cons (c : Char) (l : List Char) :
    upperList (c :: l) = pyCharUpper c :: upperList l := rfl

/-- The list-level uppercase map is idempotent. -/
theorem upperList_idem (l : List Char) : upperList (upperList l) = upperList l := by
  induction l with
  | nil => rfl
  | cons c rest ih => rw [upperList_cons, upperList_cons, pyCharUpper_idem, ih]

/-- Dropping whitespace commutes with uppercasing. -/
theorem dropWhile_upperList (l : List Char) :
    (upperList l).dropWhile pyIsSpace = upperList (l.dropWhile pyIsSpace) := by
  induction l with
  | nil => rfl
  | cons c rest ih =>
    by_cases h : pyIsSpace c = true <;>
      simp [upperList_cons, List.dropWhile_cons, pyIsSpace_pyCharUpper, h, ih]

/-- Reversal commutes with uppercasing. -/
theorem upperList_reverse (l : List Char) : (upperList l).reverse = upperList l.reverse :=
  (List.map_reverse _ _).symm

/-- Stripping commutes with uppercasing. -/
theorem stripL_upperList (l : List Char) : stripL (upperList l) = upperList (stripL l) := by
  unfold stripL
  rw [dropWhile_upperList, upperList_reverse, dropWhile_upperList, upperList_reverse]

/-- Dropping whitespace from the front twice is the same as once. -/
theorem dropWhile_pyIsSpace_idem (l : List Char) :
    (l.dropWhile pyIsSpace).dropWhile pyIsSpace = l.dropWhile pyIsSpace := by
  induction l with
  | nil => rfl
  | cons c rest ih =>
    by_cases h : pyIsSpace c = true
    · simpa [List.dropWhile_cons, h] using ih
    · simp [List.dropWhile_cons, h]

/-- A head surviving dropWhile fails the predicate. -/
theorem dropWhile_head_false {p : Char → Bool} (l : List Char) {c : Char} {t : List Char}
    (h : l.dropWhile p = c :: t) : p c = false := by
  induction l with
  | nil => exact absurd h (by simp)
  | cons a rest ih =>
    by_cases ha : p a = true
    · exact ih (by simpa [List.dropWhile_cons, ha] using h)
    · rw [List.dropWhile_cons, if_neg (by simp [ha])] at h
      cases h
      simpa using ha

/-- dropWhile slides over a trailing element that fails the predicate. -/
theorem dropWhile_append_last {p : Char → Bool} (xs : List Char) {c : Char}
    (hc : p c = false) : (xs ++ [c]).dropWhile p = xs.dropWhile p ++ [c] := by
  induction xs with
  | nil => simp [List.dropWhile_cons, hc]
  | cons a rest ih =>
    by_cases ha : p a = true
    · simpa [List.dropWhile_cons, ha] using ih
    · simp [List.dropWhile_cons, ha]

/-- A stripped list has no leading whitespace left. -/
theorem dropWhile_stripL (l : List Char) : (stripL l).dropWhile pyIsSpace = stripL l := by
  unfold stripL
  cases ha : l.dropWhile pyIsSpace with
  | nil => simp
  | cons c t =>
    have hc : pyIsSpace c = false := dropWhile_head_false l ha
    rw [show (c :: t).reverse = t.reverse ++ [c] by simp]
    rw [dropWhile_append_last t.reverse hc]
    rw [show (t.reverse.dropWhile pyIsSpace ++ [c]).reverse
        = c :: (t.reverse.dropWhile pyIsSpace).reverse by simp]
    rw [List.dropWhile_cons, if_neg (by simp [hc])]

/-- Stripping is idempotent. -/
theorem stripL_idem (l : List Char) : stripL (stripL l) = stripL l := by
  have h1 : (stripL l).reverse = (l.dropWhile pyIsSpace).reverse.dropWhile pyIsSpace := by
    unfold stripL
    rw [List.reverse_reverse]
  have h0 : stripL (stripL l)
      = (((stripL l).dropWhile pyIsSpace).reverse.dropWhile pyIsSpace).reverse := rfl
  rw [h0, dropWhile_stripL, h1, dropWhile_pyIsSpace_idem, ← h1, List.reverse_reverse]

/-- The code's entry normalisation absorbs a prior trim-then-uppercase of the
airport code. -/
theorem normalize_absorb (s : String) :
    pyStrip (pyUpper (pyUpper (pyStrip s))) = pyStrip (pyUpper s) := by
  unfold pyStrip pyUpper
  simp only [upperList_idem]
  exact congrArg String.mk (by rw [stripL_upperList, stripL_idem, ← stripL_upperList])

/-- C10: the weather decision is insensitive to case and surrounding
whitespace in the airport code — deciding on s equals deciding on
uppercase(trim(s)) — and the 3-character lowercase code del passes the invoke
endpoint's length-only validation and produces exactly the HIGH fallback
result that DEL produces. -/
theorem C10_airport_code_normalization :
    (∀ apiKey http s,
      WeatherDisruptionService.get_weather_context apiKey http s
        = WeatherDisruptionService.get_weather_context apiKey http (pyUpper (pyStrip s))) ∧
    mcp_tool_invoke none .fail (.decoded (.obj [("tool", .str "weather_disruption_context"),
        ("arguments", .obj [("airport_code", .str "del")])]))
      = .response (.obj [("tool", .str "weather_disruption_context"),
          ("result", .obj [("severity", .str "HIGH"), ("expected_duration_hours", .num 4),
            ("cascading_delay_risk", .str "HIGH"), ("source", .str "v2")])]) 200 := by
  constructor
  · intro apiKey http s
    unfold WeatherDisruptionService.get_weather_context
    exact congrArg (WeatherDisruptionService.weather_decision apiKey http)
      (normalize_absorb s).symm
  · rfl

end A2AFlightOps
